import Mathlib

unseal Rat.add Rat.mul Rat.inv Rat.sub

/-!
Shallow embedding of the analytics-service risk pipeline
(app/services/risk_analyzer.py, app/services/volatility_calculator.py,
app/services/redis_consumer.py, app/models/analytics_models.py).

Conventions of the embedding:
* Python floats are modelled by the rationals, except for the volatility
  value itself, which involves a square root and is modelled in the reals.
* Timestamps are rationals counted in seconds; a window of m minutes
  translates to the condition now - m * 60 < timestamp.
* Wall-clock inputs (datetime.now hour, weekday, the current instant) and
  the engine state read inside a method (current volatility, price history,
  per-user tracker entry) are passed explicitly as arguments.
* String formatting, logging, the reasons list and processingTimeMs are
  elided: no claim depends on them.
-/

namespace Analytics

/-- Binary minimum on the rationals, written as the Python builtin computes
it; agrees with Mathlib min (see qmin_eq). -/
def qmin (a b : ℚ) : ℚ := if a ≤ b then a else b

/-- Binary maximum on the rationals, written as the Python builtin computes
it; agrees with Mathlib max (see qmax_eq). -/
def qmax (a b : ℚ) : ℚ := if a ≤ b then b else a

/-- Absolute value on the rationals, written as the Python builtin computes
it; agrees with Mathlib abs (see qabs_eq). -/
def qabs (a : ℚ) : ℚ := if a < 0 then -a else a

theorem qmin_eq (a b : ℚ) : qmin a b = min a b := by rw [qmin, min_def]

theorem qmax_eq (a b : ℚ) : qmax a b = max a b := by rw [qmax, max_def]

theorem qabs_eq (a : ℚ) : qabs a = |a| := by
  rw [qabs, abs]
  rcases lt_trichotomy a 0 with h | h | h
  · rw [if_pos h]
    exact (max_eq_right (by linarith)).symm
  · simp [h]
  · rw [if_neg (not_lt.mpr h.le)]
    exact (max_eq_left (by linarith)).symm

/-- Settings default: VOLATILITY_WINDOW_MINUTES = 1 (app/config.py). -/
def volatility_window_minutes : ℚ := 1

/-- Settings default: HIGH_VOLATILITY_THRESHOLD = 0.05 (app/config.py). -/
def high_volatility_threshold : ℚ := 5 / 100

/-- Settings default: EXTREME_VOLATILITY_THRESHOLD = 0.10 (app/config.py). -/
def extreme_volatility_threshold : ℚ := 10 / 100

/-- Hour window used by the simulated feed for the Asian-session volatility
multiplier: volatility_calculator.py line 51, condition 2 <= hour <= 6. -/
def asian_session_hours (hour : ℕ) : Prop := 2 ≤ hour ∧ hour ≤ 6

instance (hour : ℕ) : Decidable (asian_session_hours hour) :=
  inferInstanceAs (Decidable (2 ≤ hour ∧ hour ≤ 6))

/-- Hour window used by calculate_slippage for the low-liquidity surcharge:
volatility_calculator.py line 174, condition 2 <= hour <= 6. -/
def low_liquidity_hours (hour : ℕ) : Prop := 2 ≤ hour ∧ hour ≤ 6

instance (hour : ℕ) : Decidable (low_liquidity_hours hour) :=
  inferInstanceAs (Decidable (2 ≤ hour ∧ hour ≤ 6))

/-- Embedding of VolatilityCalculator.calculate_slippage
(volatility_calculator.py lines 158-181).  The current volatility (read from
the engine state via get_current_volatility) and the clock hour are explicit
arguments; the symbol argument of the Python method is unused there and
dropped here. -/
def calculate_slippage (volatility order_size : ℚ) (hour : ℕ) : ℚ :=
  let base_slippage : ℚ := 5
  let size_impact : ℚ := qmin (order_size / 100000) (1 / 2)
  let volatility_impact : ℚ := qmin (volatility * 1000) 20
  let time_impact : ℚ := if low_liquidity_hours hour then 5 else 0
  base_slippage + size_impact + volatility_impact + time_impact

/-- Slippage formula as the spec sentence and the inline code comment state
it: the size impact is capped at 50 basis points instead of the 0.5 that the
code uses.  Kept for comparison with calculate_slippage. -/
def calculate_slippage_spec_cap (volatility order_size : ℚ) (hour : ℕ) : ℚ :=
  let base_slippage : ℚ := 5
  let size_impact : ℚ := qmin (order_size / 100000) 50
  let volatility_impact : ℚ := qmin (volatility * 1000) 20
  let time_impact : ℚ := if low_liquidity_hours hour then 5 else 0
  base_slippage + size_impact + volatility_impact + time_impact

/-- Entry of the price-history deque: volatility_calculator.py lines 69-73. -/
structure PricePoint where
  price : ℚ
  timestamp : ℚ
  change : ℚ
deriving DecidableEq

/-- Qualifying points of get_current_volatility: entries of the retained
window whose timestamp lies within the trailing volatility window
(volatility_calculator.py lines 92-96). -/
def recent_prices (history : List PricePoint) (now : ℚ) : List PricePoint :=
  history.filter (fun p => now - volatility_window_minutes * 60 < p.timestamp)

/-- Simple returns between consecutive prices: volatility_calculator.py
lines 102-105. -/
def simple_returns (ps : List ℚ) : List ℚ :=
  (ps.zip ps.tail).map (fun q => (q.2 - q.1) / q.1)

/-- Arithmetic mean of a list of rationals. -/
def mean (xs : List ℚ) : ℚ := xs.sum / xs.length

/-- Population variance (divisor n), the quantity under the square root in
numpy.std with its default ddof = 0. -/
def pop_variance (xs : List ℚ) : ℚ :=
  (xs.map (fun x => (x - mean xs) ^ 2)).sum / xs.length

/-- Sample variance (divisor n - 1), the quantity under the square root in
the sample standard deviation the spec sentence names. -/
def sample_variance (xs : List ℚ) : ℚ :=
  (xs.map (fun x => (x - mean xs) ^ 2)).sum / ((xs.length - 1 : ℕ) : ℚ)

/-- Embedding of VolatilityCalculator.get_current_volatility
(volatility_calculator.py lines 86-112).  numpy.std is the square root of
the population variance (ddof = 0); the annualisation factor is
sqrt(365 * 24 * 60). -/
noncomputable def get_current_volatility (history : List PricePoint) (now : ℚ) : ℝ :=
  if history.length < 10 then 0
  else
    let recent := recent_prices history now
    if recent.length < 2 then 0
    else
      let returns := simple_returns (recent.map PricePoint.price)
      if returns = [] then 0
      else Real.sqrt ((pop_variance returns : ℚ) : ℝ) * Real.sqrt (365 * 24 * 60)

/-- Volatility computation as the spec sentence for C8 reads, with the
sample standard deviation (divisor n - 1) in place of numpy.std.  Kept for
comparison with get_current_volatility. -/
noncomputable def get_current_volatility_spec (history : List PricePoint) (now : ℚ) : ℝ :=
  if history.length < 10 then 0
  else
    let recent := recent_prices history now
    if recent.length < 2 then 0
    else
      let returns := simple_returns (recent.map PricePoint.price)
      if returns = [] then 0
      else Real.sqrt ((sample_variance returns : ℚ) : ℝ) * Real.sqrt (365 * 24 * 60)

/-- Embedding of the Order pydantic model (analytics_models.py lines 7-15). -/
structure Order where
  orderId : String
  userId : String
  symbol : String
  side : String
  quantity : ℚ
  price : ℚ
  orderType : String
  timestamp : ℚ
deriving DecidableEq

/-- Embedding of the RiskAnalysis pydantic model (analytics_models.py lines
17-27); the reasons list and processingTimeMs are elided. -/
structure RiskAnalysis where
  orderId : String
  userId : String
  symbol : String
  riskScore : ℚ
  verdict : String
  volatility : ℚ
  slippage : ℚ
deriving DecidableEq

/-- Declared bound of the riskScore field of the RiskAnalysis model:
Field(ge=0, le=100) at analytics_models.py line 21. -/
def score_within_model_bounds (a : RiskAnalysis) : Prop :=
  0 ≤ a.riskScore ∧ a.riskScore ≤ 100

instance (a : RiskAnalysis) : Decidable (score_within_model_bounds a) :=
  inferInstanceAs (Decidable (0 ≤ a.riskScore ∧ a.riskScore ≤ 100))

/-- Entry of the per-user recent_orders list (risk_analyzer.py lines
221-226). -/
structure RecentOrder where
  orderId : String
  timestamp : ℚ
  size : ℚ
  riskScore : ℚ
deriving DecidableEq

/-- Per-user tracker entry of RiskAnalyzer.user_analytics (risk_analyzer.py
lines 130-136). -/
structure UserData where
  total_orders : ℕ
  total_volume : ℚ
  recent_orders : List RecentOrder
  risk_events : ℕ
  last_activity : ℚ
deriving DecidableEq

/-- Fresh tracker entry created for an unseen user (risk_analyzer.py lines
129-136). -/
def init_user_data (now : ℚ) : UserData :=
  { total_orders := 0, total_volume := 0, recent_orders := [],
    risk_events := 0, last_activity := now }

/-- Ambient inputs read by analyze_order from the engine state and the
clock: current volatility and its percentile, hour and weekday of
datetime.now, the current instant, and the price history of the feed. -/
structure Env where
  vol : ℚ
  volPercentile : ℚ
  hour : ℕ
  weekday : ℕ
  now : ℚ
  priceHistory : List PricePoint

/-- Fresh analysis object built at the top of analyze_order
(risk_analyzer.py lines 29-39). -/
def init_analysis (order : Order) : RiskAnalysis :=
  { orderId := order.orderId, userId := order.userId, symbol := order.symbol,
    riskScore := 0, verdict := "ACCEPT", volatility := 0, slippage := 0 }

/-- Embedding of RiskAnalyzer._analyze_volatility_risk (risk_analyzer.py
lines 85-106). -/
def analyze_volatility_risk (env : Env) (a : RiskAnalysis) : RiskAnalysis :=
  let a := { a with volatility := env.vol }
  let a :=
    if extreme_volatility_threshold < env.vol then
      { a with riskScore := a.riskScore + 30 }
    else if high_volatility_threshold < env.vol then
      { a with riskScore := a.riskScore + 15 }
    else a
  if (90 : ℚ) < env.volPercentile then { a with riskScore := a.riskScore + 10 } else a

/-- Embedding of RiskAnalyzer._analyze_slippage_risk (risk_analyzer.py lines
108-122). -/
def analyze_slippage_risk (env : Env) (order : Order) (a : RiskAnalysis) : RiskAnalysis :=
  let order_size := order.quantity * order.price
  let slippage_bps := calculate_slippage env.vol order_size env.hour
  let a := { a with slippage := slippage_bps / 10000 }
  if (25 : ℚ) < slippage_bps then { a with riskScore := a.riskScore + 20 }
  else if (15 : ℚ) < slippage_bps then { a with riskScore := a.riskScore + 10 }
  else a

/-- Recent orders of a user: tracker entries whose timestamp lies within the
trailing five minutes (risk_analyzer.py lines 141-144). -/
def recent_user_orders (now : ℚ) (u : UserData) : List RecentOrder :=
  u.recent_orders.filter (fun o => now - 5 * 60 < o.timestamp)

/-- Frequency condition of the user-behavior stage: more than 10 of the
user's orders within the trailing five minutes (risk_analyzer.py line 146),
worth 25 points. -/
def high_frequency_cond (now : ℚ) (u : UserData) : Prop :=
  10 < (recent_user_orders now u).length

instance (now : ℚ) (u : UserData) : Decidable (high_frequency_cond now u) :=
  inferInstanceAs (Decidable (10 < (recent_user_orders now u).length))

/-- Size condition of the user-behavior stage: the user has prior orders and
this notional exceeds five times the historical average (risk_analyzer.py
lines 152-154), worth 15 points. -/
def large_order_cond (u : UserData) (order : Order) : Prop :=
  0 < u.total_orders ∧
    (u.total_volume / (u.total_orders : ℚ)) * 5 < order.quantity * order.price

instance (u : UserData) (order : Order) : Decidable (large_order_cond u order) :=
  inferInstanceAs (Decidable (_ ∧ _))

/-- First-order condition of the user-behavior stage: the user has no prior
orders (risk_analyzer.py line 159), worth 5 points. -/
def first_order_cond (u : UserData) : Prop := u.total_orders = 0

instance (u : UserData) : Decidable (first_order_cond u) :=
  inferInstanceAs (Decidable (u.total_orders = 0))

/-- Embedding of RiskAnalyzer._analyze_user_behavior (risk_analyzer.py lines
124-164). -/
def analyze_user_behavior (now : ℚ) (u : UserData) (order : Order)
    (a : RiskAnalysis) : RiskAnalysis :=
  let a := if high_frequency_cond now u then { a with riskScore := a.riskScore + 25 } else a
  let a := if large_order_cond u order then { a with riskScore := a.riskScore + 15 } else a
  if first_order_cond u then { a with riskScore := a.riskScore + 5 } else a

/-- Price history of the last m minutes, as get_price_history returns it
(volatility_calculator.py lines 150-156). -/
def get_price_history (minutes : ℚ) (now : ℚ) (history : List PricePoint) :
    List PricePoint :=
  history.filter (fun p => now - minutes * 60 < p.timestamp)

/-- Embedding of RiskAnalyzer._analyze_market_conditions (risk_analyzer.py
lines 166-191).  The slice history[-10:] is List.drop (length - 10); the
fold with seed 0 agrees with the Python max because every entry is an
absolute value, hence nonnegative. -/
def analyze_market_conditions (env : Env) (order : Order) (a : RiskAnalysis) :
    RiskAnalysis :=
  let a := if env.hour < 9 ∨ 16 < env.hour then { a with riskScore := a.riskScore + 5 } else a
  let a := if 5 ≤ env.weekday then { a with riskScore := a.riskScore + 10 } else a
  let history5 := get_price_history 5 env.now env.priceHistory
  if 1 < history5.length then
    let recent_changes := (history5.drop (history5.length - 10)).map (fun p => qabs p.change)
    if recent_changes ≠ [] ∧ order.price * (5 / 1000) < recent_changes.foldr qmax 0 then
      { a with riskScore := a.riskScore + 10 }
    else a
  else a

/-- Embedding of RiskAnalyzer._determine_verdict (risk_analyzer.py lines
193-208); only the verdict field changes, the summary reason is elided. -/
def determine_verdict (a : RiskAnalysis) : RiskAnalysis :=
  if (70 : ℚ) ≤ a.riskScore then { a with verdict := "REJECT" }
  else if (30 : ℚ) ≤ a.riskScore then { a with verdict := "WARN" }
  else { a with verdict := "ACCEPT" }

/-- Embedding of RiskAnalyzer.analyze_order (risk_analyzer.py lines 20-60)
after a successful parse: the four scoring stages in order, then the
verdict.  The tracker entry for the user is an Option: none means the user
is unseen and a fresh entry is created. -/
def analyze_order (env : Env) (user : Option UserData) (order : Order) :
    RiskAnalysis :=
  let u := user.getD (init_user_data env.now)
  determine_verdict
    (analyze_market_conditions env order
      (analyze_user_behavior env.now u order
        (analyze_slippage_risk env order
          (analyze_volatility_risk env (init_analysis order)))))

/-- Inbound stream message as RedisConsumer hands it to the analyzer.
The orderData field is present iff the mapping holds an orderData key; its
value is the outcome of decoding the JSON payload into an Order (json.loads
plus the Order constructor, which may fail).  The direct field is the
outcome of building an Order from the fields present directly in the
mapping (risk_analyzer.py lines 72-83), which may fail on a missing key or
a bad value.  Failures carry no data: Unit stands for the raised
exception. -/
structure Message where
  orderData : Option (Except Unit Order)
  direct : Except Unit Order

/-- Embedding of RiskAnalyzer._parse_order_data (risk_analyzer.py lines
66-83): when the orderData key is present the Order comes from that JSON
payload alone, otherwise from the direct fields. -/
def parse_order_data (m : Message) : Except Unit Order :=
  match m.orderData with
  | some payload => payload
  | none => m.direct

/-- Analysis of one message: analyze_order after _parse_order_data, raising
iff the parse raises (risk_analyzer.py lines 24-64; the scoring stages
themselves are total). -/
def analyze_order_message (env : Env) (user : Option UserData) (m : Message) :
    Except Unit RiskAnalysis :=
  (parse_order_data m).map (analyze_order env user)

/-- Embedding of RedisConsumer._store_analysis_result (redis_consumer.py
lines 126-151).  The write_attempt argument is what the Redis write would
do; the method catches any exception of its own and only logs it, so it
never raises.  The Bool says whether a result was actually stored. -/
def store_analysis_result (write_attempt : Except Unit Unit) : Except Unit Bool :=
  match write_attempt with
  | Except.ok _ => Except.ok true
  | Except.error _ => Except.ok false

/-- Embedding of RedisConsumer._process_single_message (redis_consumer.py
lines 108-124): analyze, then store; re-raises whatever analyze raises. -/
def process_single_message (env : Env) (user : Option UserData) (m : Message)
    (write_attempt : Except Unit Unit) : Except Unit Bool :=
  match analyze_order_message env user m with
  | Except.error e => Except.error e
  | Except.ok _ => store_analysis_result write_attempt

/-- Outcome of handling one delivered message: whether it was acknowledged
to the consumer group and whether an analysis result was stored. -/
structure ProcessOutcome where
  acked : Bool
  stored : Bool
deriving DecidableEq

/-- Embedding of the per-message body of RedisConsumer._process_messages
(redis_consumer.py lines 90-106): xack exactly when _process_single_message
did not raise. -/
def process_message (env : Env) (user : Option UserData) (m : Message)
    (write_attempt : Except Unit Unit) : ProcessOutcome :=
  match process_single_message env user m write_attempt with
  | Except.ok stored => { acked := true, stored := stored }
  | Except.error _ => { acked := false, stored := false }

/-- Success flag of an Except value (did the step raise or not). -/
def except_ok {ε α : Type} : Except ε α → Bool
  | Except.ok _ => true
  | Except.error _ => false

/-! Concrete fixtures used by counterexamples and witnesses. -/

/-- Order fixture: 60 units at price 100 (notional 6000). -/
def c5_order : Order :=
  { orderId := "ord1", userId := "u1", symbol := "BTC-USD", side := "BUY",
    quantity := 60, price := 100, orderType := "LIMIT", timestamp := 1000 }

/-- Tracker fixture: 20 prior orders with average notional 1, of which 11
fall inside the trailing five minutes at instant 1000. -/
def c5_user : UserData :=
  { total_orders := 20, total_volume := 20,
    recent_orders := List.replicate 11
      { orderId := "o", timestamp := 999, size := 1, riskScore := 0 },
    risk_events := 0, last_activity := 0 }

/-- Fresh analysis fixture for the user-behavior stage. -/
def c5_analysis : RiskAnalysis := init_analysis c5_order

/-! Shared helper lemmas. -/

theorem determine_verdict_riskScore (a : RiskAnalysis) :
    (determine_verdict a).riskScore = a.riskScore := by
  unfold determine_verdict; split_ifs <;> rfl

theorem determine_verdict_verdict (a : RiskAnalysis) :
    (determine_verdict a).verdict =
      if (70 : ℚ) ≤ a.riskScore then "REJECT"
      else if (30 : ℚ) ≤ a.riskScore then "WARN"
      else "ACCEPT" := by
  unfold determine_verdict; split_ifs <;> rfl

/-! Claim theorems. -/

/-- C1: for every analysis produced by analyze_order, the verdict is a
function of the accumulated risk score alone: REJECT when the score is at
least 70, WARN when it is at least 30 and below 70, ACCEPT otherwise, with
both boundaries inclusive. -/
theorem c1_verdict_from_score (env : Env) (user : Option UserData) (order : Order) :
    (analyze_order env user order).verdict =
      if (70 : ℚ) ≤ (analyze_order env user order).riskScore then "REJECT"
      else if (30 : ℚ) ≤ (analyze_order env user order).riskScore then "WARN"
      else "ACCEPT" := by
  simp only [analyze_order, determine_verdict_riskScore, determine_verdict_verdict]

/-- C3 counterexample: calculate_slippage is not strictly increasing in the
order notional; at notionals 50000 and 60000 (same volatility and hour) the
size impact is capped at 0.5 and the two slippage values coincide. -/
theorem c3_counterexample :
    (50000 : ℚ) < 60000 ∧
      calculate_slippage 0 50000 0 = calculate_slippage 0 60000 0 := by
  decide

/-- C3 amended: calculate_slippage is non-decreasing in the order notional
for fixed volatility and hour (strictness fails once the size impact
reaches its 0.5 cap). -/
theorem c3_slippage_monotone (v : ℚ) (h : ℕ) (a b : ℚ) (hab : a ≤ b) :
    calculate_slippage v a h ≤ calculate_slippage v b h := by
  unfold calculate_slippage
  dsimp only
  simp only [qmin_eq]
  have hd : a / 100000 ≤ b / 100000 := by linarith
  have hm : min (a / 100000) (1 / 2 : ℚ) ≤ min (b / 100000) (1 / 2 : ℚ) :=
    min_le_min hd le_rfl
  linarith

/-- Witness for c3_slippage_monotone at notionals 1000 and 2000. -/
theorem c3_monotone_witness :
    (1000 : ℚ) ≤ 2000 ∧ calculate_slippage 0 1000 0 ≤ calculate_slippage 0 2000 0 :=
  ⟨by decide, c3_slippage_monotone 0 0 1000 2000 (by decide)⟩

/-- C6: the code evaluates the slippage of a 10,000,000 notional order at
quiet volatility and hour 0 to 5.5 bps, because the size impact is capped at
0.5; the formula the spec and the inline comment state (size impact capped
at 50 bps) yields 55 bps there.  The surcharge window of the slippage model
coincides with the Asian-session window of the feed. -/
theorem c6_size_cap_units_bug :
    calculate_slippage 0 10000000 0 = 11 / 2 ∧
      calculate_slippage_spec_cap 0 10000000 0 = 55 ∧
      ∀ h : ℕ, low_liquidity_hours h ↔ asian_session_hours h :=
  ⟨by decide, by decide, fun _ => Iff.rfl⟩

/-- C9: the current volatility of the engine is never negative, and for
every nonnegative volatility and order notional, calculate_slippage lies
between 5 and 30.5 basis points inclusive. -/
theorem c9_slippage_range :
    (∀ (history : List PricePoint) (now : ℚ), 0 ≤ get_current_volatility history now) ∧
    ∀ (v os : ℚ) (h : ℕ), 0 ≤ v → 0 ≤ os →
      5 ≤ calculate_slippage v os h ∧ calculate_slippage v os h ≤ 61 / 2 := by
  constructor
  · intro history now
    unfold get_current_volatility
    dsimp only
    split_ifs <;> positivity
  · intro v os h hv hos
    unfold calculate_slippage
    dsimp only
    simp only [qmin_eq]
    have h1l : (0 : ℚ) ≤ min (os / 100000) (1 / 2) := le_min (by positivity) (by norm_num)
    have h1r : min (os / 100000) (1 / 2 : ℚ) ≤ 1 / 2 := min_le_right _ _
    have h2l : (0 : ℚ) ≤ min (v * 1000) 20 := le_min (by positivity) (by norm_num)
    have h2r : min (v * 1000) (20 : ℚ) ≤ 20 := min_le_right _ _
    have h3l : (0 : ℚ) ≤ ite (low_liquidity_hours h) 5 0 := by split_ifs <;> norm_num
    have h3r : ite (low_liquidity_hours h) (5 : ℚ) 0 ≤ 5 := by split_ifs <;> norm_num
    constructor <;> linarith

/-- Witness for c9_slippage_range at volatility 0 and notional 1000. -/
theorem c9_witness :
    5 ≤ calculate_slippage 0 1000 0 ∧ calculate_slippage 0 1000 0 ≤ 61 / 2 :=
  c9_slippage_range.2 0 1000 0 (by decide) (by decide)

/-- C10: when the inbound message mapping holds an orderData key, the Order
comes from that JSON payload alone; the direct order fields of the mapping
are ignored (any two messages agreeing on orderData parse identically). -/
theorem c10_orderdata_exclusive (payload d1 d2 : Except Unit Order) :
    parse_order_data { orderData := some payload, direct := d1 } = payload ∧
      parse_order_data { orderData := some payload, direct := d1 } =
        parse_order_data { orderData := some payload, direct := d2 } :=
  ⟨rfl, rfl⟩

/-- Environment fixture for the consumer counterexample. -/
def c2_env : Env :=
  { vol := 0, volPercentile := 50, hour := 12, weekday := 2, now := 0,
    priceHistory := [] }

/-- Message fixture whose orderData payload decodes successfully. -/
def c2_message : Message :=
  { orderData := some (Except.ok
      { orderId := "ord3", userId := "u3", symbol := "BTC-USD", side := "SELL",
        quantity := 1, price := 100, orderType := "MARKET", timestamp := 0 }),
    direct := Except.error () }

/-- C2 counterexample: a message that parses and scores but whose persist
write fails is still acknowledged (store_analysis_result catches its own
exception), with no stored result — the claim says a persist failure
leaves the message unacknowledged. -/
theorem c2_counterexample :
    process_message c2_env none c2_message (Except.error ()) =
      { acked := true, stored := false } := by
  decide

/-- C2 amended: a message is acknowledged iff parsing (and hence scoring)
succeeds, regardless of the persist write; a result is stored iff parsing
succeeds and the persist write also succeeds.  Persist failures are caught
inside store_analysis_result, so they never block acknowledgment. -/
theorem c2_ack_iff_parse_ok (env : Env) (user : Option UserData) (m : Message)
    (wa : Except Unit Unit) :
    (process_message env user m wa).acked = except_ok (parse_order_data m) ∧
      (process_message env user m wa).stored =
        (except_ok (parse_order_data m) && except_ok wa) := by
  rcases hp : parse_order_data m with e | o <;> rcases wa with u | e2 <;>
    simp [process_message, process_single_message, analyze_order_message,
      store_analysis_result, except_ok, hp, Except.map]

/-- C5 counterexample: no tracker state and order make all three
user-behavior conditions fire on the same analysis — the large-order
condition requires prior orders while the first-order condition requires
none. -/
theorem c5_counterexample :
    ¬ ∃ (now : ℚ) (u : UserData) (o : Order),
        high_frequency_cond now u ∧ large_order_cond u o ∧ first_order_cond u := by
  rintro ⟨now, u, o, -, ⟨hpos, -⟩, hfirst⟩
  unfold first_order_cond at hfirst
  omega

/-- C5 amended: the frequency condition is independent of the other two and
fires together with the large-order condition (25 + 15 = 40 points on one
analysis, witnessed by a concrete tracker state and order), but the
large-order and first-order conditions are mutually exclusive, so all three
can never fire together. -/
theorem c5_conditions_compatibility :
    (∀ (u : UserData) (o : Order), ¬ (large_order_cond u o ∧ first_order_cond u)) ∧
      (high_frequency_cond 1000 c5_user ∧ large_order_cond c5_user c5_order ∧
        (analyze_user_behavior 1000 c5_user c5_order c5_analysis).riskScore =
          c5_analysis.riskScore + 40) := by
  constructor
  · rintro u o ⟨⟨hpos, -⟩, hfirst⟩
    unfold first_order_cond at hfirst
    omega
  · exact ⟨by decide, by decide, by decide⟩

/-- C7: get_current_volatility returns exactly 0 when fewer than 10 total
points are retained, and also when fewer than 2 retained points fall within
the trailing volatility window, regardless of the total count. -/
theorem c7_volatility_cold_start (history : List PricePoint) (now : ℚ) :
    (history.length < 10 → get_current_volatility history now = 0) ∧
      ((recent_prices history now).length < 2 → get_current_volatility history now = 0) := by
  constructor
  · intro h
    unfold get_current_volatility
    rw [if_pos h]
  · intro h2
    unfold get_current_volatility
    by_cases h1 : history.length < 10
    · rw [if_pos h1]
    · rw [if_neg h1]
      dsimp only
      rw [if_pos h2]

/-- History fixture: ten retained points, none inside the trailing window at
instant 1000. -/
def c7_history : List PricePoint :=
  List.replicate 10 { price := 45000, timestamp := 0, change := 0 }

/-- Witness for c7_volatility_cold_start: the empty history (fewer than 10
points) and a ten-point history with no point in the window. -/
theorem c7_witness :
    get_current_volatility [] 0 = 0 ∧ get_current_volatility c7_history 1000 = 0 :=
  ⟨(c7_volatility_cold_start [] 0).1 (by decide),
    (c7_volatility_cold_start c7_history 1000).2 (by decide)⟩

/-! Stage monotonicity lemmas for the risk score. -/

theorem analyze_volatility_risk_score_mono (env : Env) (a : RiskAnalysis) :
    a.riskScore ≤ (analyze_volatility_risk env a).riskScore := by
  unfold analyze_volatility_risk
  try dsimp only
  split_ifs <;> try dsimp only
  all_goals linarith

theorem analyze_slippage_risk_score_mono (env : Env) (o : Order) (a : RiskAnalysis) :
    a.riskScore ≤ (analyze_slippage_risk env o a).riskScore := by
  unfold analyze_slippage_risk
  try dsimp only
  split_ifs <;> try dsimp only
  all_goals linarith

theorem analyze_user_behavior_score_mono (now : ℚ) (u : UserData) (o : Order)
    (a : RiskAnalysis) :
    a.riskScore ≤ (analyze_user_behavior now u o a).riskScore := by
  unfold analyze_user_behavior
  try dsimp only
  split_ifs <;> try dsimp only
  all_goals linarith

theorem analyze_market_conditions_score_mono (env : Env) (o : Order)
    (a : RiskAnalysis) :
    a.riskScore ≤ (analyze_market_conditions env o a).riskScore := by
  unfold analyze_market_conditions
  try dsimp only
  split_ifs <;> try dsimp only
  all_goals linarith

/-- Environment fixture on which every scoring condition fires: extreme
volatility, top-percentile volatility, surcharge hour inside the
low-liquidity window, weekend, off-hours, and a recent large price move. -/
def c4_env : Env :=
  { vol := 1 / 5, volPercentile := 95, hour := 3, weekday := 6, now := 1000,
    priceHistory := [{ price := 45000, timestamp := 998, change := 300 },
                     { price := 45000, timestamp := 999, change := 300 }] }

/-- C4: the risk score is assembled from nonnegative contributions only
(hence never negative), but it is not clamped: on the fixture state every
condition fires and analyze_order returns a RiskAnalysis whose reported
riskScore is 125, outside the [0, 100] bound the model field declares. -/
theorem c4_score_overflow :
    (∀ (env : Env) (user : Option UserData) (o : Order),
        0 ≤ (analyze_order env user o).riskScore) ∧
      (analyze_order c4_env (some c5_user) c5_order).riskScore = 125 ∧
      ¬ score_within_model_bounds (analyze_order c4_env (some c5_user) c5_order) := by
  refine ⟨?_, by decide, by decide⟩
  intro env user o
  unfold analyze_order
  dsimp only
  rw [determine_verdict_riskScore]
  have h0 : (0 : ℚ) ≤ (init_analysis o).riskScore := by simp [init_analysis]
  have h1 := analyze_volatility_risk_score_mono env (init_analysis o)
  have h2 := analyze_slippage_risk_score_mono env o
    (analyze_volatility_risk env (init_analysis o))
  have h3 := analyze_user_behavior_score_mono env.now
    (user.getD (init_user_data env.now)) o
    (analyze_slippage_risk env o (analyze_volatility_risk env (init_analysis o)))
  have h4 := analyze_market_conditions_score_mono env o
    (analyze_user_behavior env.now (user.getD (init_user_data env.now)) o
      (analyze_slippage_risk env o (analyze_volatility_risk env (init_analysis o))))
  linarith

/-! Volatility value lemmas for C8. -/

theorem simple_returns_ne_nil {ps : List ℚ} (h : 2 ≤ ps.length) :
    simple_returns ps ≠ [] := by
  unfold simple_returns
  intro hnil
  have hlen := congrArg List.length hnil
  rw [List.length_map, List.length_zip, List.length_tail, List.length_nil] at hlen
  rw [Nat.min_def] at hlen
  split_ifs at hlen <;> omega

/-- C8 amended: when at least 10 points are retained and at least 2 of them
qualify for the trailing window, get_current_volatility equals the
population standard deviation (divisor n, numpy.std with its default
ddof = 0) of the simple returns between consecutive qualifying points,
multiplied by sqrt(365 * 24 * 60). -/
theorem c8_pop_std_annualized (history : List PricePoint) (now : ℚ)
    (h10 : 10 ≤ history.length) (hq : 2 ≤ (recent_prices history now).length) :
    get_current_volatility history now =
      Real.sqrt ((pop_variance (simple_returns
          ((recent_prices history now).map PricePoint.price)) : ℚ) : ℝ) *
        Real.sqrt (365 * 24 * 60) := by
  unfold get_current_volatility
  rw [if_neg (by omega)]
  try dsimp only
  rw [if_neg (by omega)]
  try dsimp only
  rw [if_neg (simple_returns_ne_nil (by rw [List.length_map]; omega))]

/-- History fixture for C8: seven stale points and three qualifying points
with prices 100, 100, 110 at instant 100 — returns 0 and 1/10, population
variance 1/400, sample variance 1/200. -/
def c8_history : List PricePoint :=
  List.replicate 7 { price := 45000, timestamp := 0, change := 0 } ++
    [{ price := 100, timestamp := 100, change := 0 },
     { price := 100, timestamp := 100, change := 0 },
     { price := 110, timestamp := 100, change := 10 }]

/-- Witness for c8_pop_std_annualized at the ten-point fixture history. -/
theorem c8_witness :
    get_current_volatility c8_history 100 =
      Real.sqrt ((pop_variance (simple_returns
          ((recent_prices c8_history 100).map PricePoint.price)) : ℚ) : ℝ) *
        Real.sqrt (365 * 24 * 60) :=
  c8_pop_std_annualized c8_history 100 (by decide) (by decide)

/-- C8 counterexample: the code value differs from the sample-standard-
deviation (divisor n - 1) reading of the claim on the fixture history — the
code annualises sqrt(1/400), the claim would annualise sqrt(1/200). -/
theorem c8_counterexample :
    get_current_volatility c8_history 100 ≠ get_current_volatility_spec c8_history 100 := by
  have hret : simple_returns ((recent_prices c8_history 100).map PricePoint.price) =
      [0, 1 / 10] := by decide
  have hvar : pop_variance [0, 1 / 10] = 1 / 400 := by decide
  have hsvar : sample_variance [0, 1 / 10] = 1 / 200 := by decide
  have hcode : get_current_volatility c8_history 100 =
      Real.sqrt ((1 / 400 : ℚ) : ℝ) * Real.sqrt (365 * 24 * 60) := by
    unfold get_current_volatility
    rw [if_neg (by decide)]
    try dsimp only
    rw [if_neg (by decide)]
    try dsimp only
    rw [hret, if_neg (by decide : ¬ ([0, (1 : ℚ) / 10] = [])), hvar]
  have hspec : get_current_volatility_spec c8_history 100 =
      Real.sqrt ((1 / 200 : ℚ) : ℝ) * Real.sqrt (365 * 24 * 60) := by
    unfold get_current_volatility_spec
    rw [if_neg (by decide)]
    try dsimp only
    rw [if_neg (by decide)]
    try dsimp only
    rw [hret, if_neg (by decide : ¬ ([0, (1 : ℚ) / 10] = [])), hsvar]
  rw [hcode, hspec]
  have hlt : Real.sqrt ((1 / 400 : ℚ) : ℝ) < Real.sqrt ((1 / 200 : ℚ) : ℝ) := by
    apply Real.sqrt_lt_sqrt
    · positivity
    · exact_mod_cast (by norm_num : (1 / 400 : ℚ) < 1 / 200)
  have hpos : (0 : ℝ) < Real.sqrt (365 * 24 * 60) := Real.sqrt_pos.mpr (by norm_num)
  exact ne_of_lt (mul_lt_mul_of_pos_right hlt hpos)

end Analytics
